import Mathlib

/-!
# nanopolish: pore model parameters and the alignment region cache

A shallow embedding of `src/nanopolish_poremodel.h` and
`src/alignment/nanopolish_alignment_db.h`.

* `double` is a type parameter `α`; the `<math.h>` calls `pow` and `log` are
  passed in as a `MathFns α`, so every definition is executable.  Statements
  "over exact real arithmetic" instantiate `α := ℝ` with the real power and the
  real logarithm.
* `int` is `Int` (the searches only compare), `uint8_t` is a `Nat`, so that no
  field of that type holds a negative value, `std::vector` is `List`,
  `std::string` is `String`.
* `assert` is modelled as a failing `Except`.
-/

namespace Nanopolish

/-! ## `nanopolish_poremodel.h` -/

/-- The two `<math.h>` functions that `PoreModelStateParams` calls. -/
structure MathFns (α : Type) where
  pow : α → α → α
  log : α → α

/-- Modelled from the spec: `fast5::Model_Entry` is declared in `fast5.hpp`,
which is not part of the sources; only the four fields that
`PoreModelStateParams::operator=` reads are kept. -/
structure Model_Entry (α : Type) where
  level_mean : α
  level_stdv : α
  sd_mean : α
  sd_stdv : α

/-- The `struct PoreModelStateParams`: seven `double` fields, in declaration order. -/
structure PoreModelStateParams (α : Type) where
  level_mean : α
  level_stdv : α
  sd_mean : α
  sd_stdv : α
  level_log_stdv : α
  sd_lambda : α
  sd_log_lambda : α

/-- Method `update_sd_lambda`: `sd_lambda = pow(sd_mean, 3.0) / pow(sd_stdv, 2.0)`. -/
def PoreModelStateParams.update_sd_lambda {α : Type} [Div α] [OfScientific α]
    (m : MathFns α) (s : PoreModelStateParams α) : PoreModelStateParams α :=
  { s with sd_lambda := m.pow s.sd_mean 3.0 / m.pow s.sd_stdv 2.0 }

/-- Method `update_sd_stdv`: `sd_stdv = pow(pow(sd_mean, 3.0) / sd_lambda, .5)`. -/
def PoreModelStateParams.update_sd_stdv {α : Type} [Div α] [OfScientific α]
    (m : MathFns α) (s : PoreModelStateParams α) : PoreModelStateParams α :=
  { s with sd_stdv := m.pow (m.pow s.sd_mean 3.0 / s.sd_lambda) 0.5 }

/-- Method `update_logs`: refresh the two cached logarithms, in source order. -/
def PoreModelStateParams.update_logs {α : Type}
    (m : MathFns α) (s : PoreModelStateParams α) : PoreModelStateParams α :=
  let s1 := { s with level_log_stdv := m.log s.level_stdv }
  { s1 with sd_log_lambda := m.log s1.sd_lambda }

/-- Assignment `operator=(const fast5::Model_Entry&)`: copy four fields, then
`update_sd_lambda()`. -/
def PoreModelStateParams.assign {α : Type} [Div α] [OfScientific α]
    (m : MathFns α) (s : PoreModelStateParams α) (e : Model_Entry α) :
    PoreModelStateParams α :=
  let s1 := { s with level_mean := e.level_mean }
  let s2 := { s1 with level_stdv := e.level_stdv }
  let s3 := { s2 with sd_mean := e.sd_mean }
  let s4 := { s3 with sd_stdv := e.sd_stdv }
  s4.update_sd_lambda m

/-- How a call can go wrong: a failed `assert`, or an index outside the
vector (undefined behaviour in the source). -/
inductive Failure where
  | assertion_failed
  | out_of_range
  deriving DecidableEq

/-- The `class PoreModel`, data members in declaration order.  `G` stands for
`GaussianParameters` and `A` for `const Alphabet*`, both declared outside the
sources; `uint32_t k` is a `Nat`. -/
structure PoreModel (α G A : Type) where
  model_filename : String
  name : String
  k : Nat
  scale : α
  shift : α
  drift : α
  var : α
  scale_sd : α
  var_sd : α
  shift_offset : α
  is_scaled : Bool
  pmalphabet : A
  states : List (PoreModelStateParams α)
  scaled_states : List (PoreModelStateParams α)
  scaled_params : List G

/-- Accessor `get_scaled_parameters`: `assert(is_scaled); return scaled_params[kmer_rank];`.
The member is `const`; the model is handed back next to the value so that the
frame condition can be stated. -/
def PoreModel.get_scaled_parameters {α G A : Type} (pm : PoreModel α G A)
    (kmer_rank : Nat) : Except Failure (G × PoreModel α G A) :=
  if pm.is_scaled then
    match pm.scaled_params[kmer_rank]? with
    | some g => Except.ok (g, pm)
    | none => Except.error Failure.out_of_range
  else Except.error Failure.assertion_failed

/-- Accessor `get_scaled_state`: `assert(is_scaled); return scaled_states[kmer_rank];`. -/
def PoreModel.get_scaled_state {α G A : Type} (pm : PoreModel α G A)
    (kmer_rank : Nat) : Except Failure (PoreModelStateParams α × PoreModel α G A) :=
  if pm.is_scaled then
    match pm.scaled_states[kmer_rank]? with
    | some st => Except.ok (st, pm)
    | none => Except.error Failure.out_of_range
  else Except.error Failure.assertion_failed

/-! ## `alignment/nanopolish_alignment_db.h` -/

/-- Modelled from the spec: `AlignedPair` is declared in `nanopolish_anchor.h`,
which is not part of the sources; the spec describes it as an ordered pair
(reference_position, read_or_event_position). -/
structure AlignedPair where
  ref_pos : Int
  read_pos : Int
  deriving DecidableEq

/-- The `struct SequenceAlignmentRecord`. -/
structure SequenceAlignmentRecord where
  sequence : String
  aligned_bases : List AlignedPair

/-- The `struct EventAlignmentRecord`; `SR` stands for `SquiggleRead*`.  The three
`uint8_t` fields `rc`, `strand` and `stride` are naturals: the type has no
negative value. -/
structure EventAlignmentRecord (SR : Type) where
  sr : SR
  rc : Nat
  strand : Nat
  stride : Nat
  aligned_events : List AlignedPair

/-- The `class AlignmentDB`, data members in declaration order.  `F` stands for
`Fast5Map`, `SR` for `SquiggleRead*` and `MM` for `ModelMap`; the pointer
`const ModelMap*` is an `Option`, `none` being the null pointer. -/
structure AlignmentDB (F SR MM : Type) where
  m_reference_file : String
  m_sequence_bam : String
  m_event_bam : String
  m_region_ref_sequence : String
  m_region_contig : String
  m_region_start : Int
  m_region_end : Int
  m_fast5_name_map : F
  m_sequence_records : List SequenceAlignmentRecord
  m_event_records : List (EventAlignmentRecord SR)
  m_squiggle_read_map : List (String × SR)
  m_p_model_map : Option MM

/-- Accessor `get_reference() const { return m_region_ref_sequence; }`, handing the
object back next to the value. -/
def AlignmentDB.get_reference {F SR MM : Type} (db : AlignmentDB F SR MM) :
    String × AlignmentDB F SR MM :=
  (db.m_region_ref_sequence, db)

/-- Accessor `get_region_start() const { return m_region_start; }`. -/
def AlignmentDB.get_region_start {F SR MM : Type} (db : AlignmentDB F SR MM) :
    Int × AlignmentDB F SR MM :=
  (db.m_region_start, db)

/-- Accessor `get_region_end() const { return m_region_end; }`. -/
def AlignmentDB.get_region_end {F SR MM : Type} (db : AlignmentDB F SR MM) :
    Int × AlignmentDB F SR MM :=
  (db.m_region_end, db)

/-- Setter `set_alternative_model(p_model_map) { m_p_model_map = p_model_map; }`. -/
def AlignmentDB.set_alternative_model {F SR MM : Type} (db : AlignmentDB F SR MM)
    (p_model_map : Option MM) : AlignmentDB F SR MM :=
  { db with m_p_model_map := p_model_map }

/-- The loop shared by `std::lower_bound` and `std::upper_bound` over the range
`[first, first + count)`: probe the middle element and keep the right half when
`goRight` holds of it, the left half otherwise.  `fuel` bounds the number of
probes; `count` at least halves at each probe, so `fuel = count` is enough. -/
def bound_loop (pairs : List AlignedPair) (goRight : AlignedPair → Bool) :
    Nat → Nat → Nat → Nat
  | 0, first, _ => first
  | fuel + 1, first, count =>
    if count = 0 then first
    else
      let step := count / 2
      let it := first + step
      match pairs[it]? with
      | some p =>
        if goRight p then bound_loop pairs goRight fuel (it + 1) (count - (step + 1))
        else bound_loop pairs goRight fuel first step
      | none => first

/-- The `std::lower_bound` search on reference positions: the comparator is
`pair.ref_pos < value`. -/
def lower_bound (pairs : List AlignedPair) (value : Int) : Nat :=
  bound_loop pairs (fun p => decide (p.ref_pos < value)) pairs.length 0 pairs.length

/-- The `std::upper_bound` search on reference positions: the comparator is
`value < pair.ref_pos`, and the search moves right when it does not hold. -/
def upper_bound (pairs : List AlignedPair) (value : Int) : Nat :=
  bound_loop pairs (fun p => !decide (value < p.ref_pos)) pairs.length 0 pairs.length

/-- Modelled from the spec: the body of `AlignmentDB::_find_iter_by_ref_bounds`
is not part of the sources.  The header says the search uses
lower_bound/upper_bound, and the spec that it finds the first pair with
reference position ≥ ref_start and the last with reference position ≤ ref_stop,
failing when no pair falls within the interval.  The result is the pair of
indices (start_iter, stop_iter). -/
def AlignmentDB._find_iter_by_ref_bounds (pairs : List AlignedPair)
    (ref_start ref_stop : Int) : Option (Nat × Nat) :=
  let start_iter := lower_bound pairs ref_start
  let stop_end := upper_bound pairs ref_stop
  if start_iter < stop_end then some (start_iter, stop_end - 1) else none

/-- Modelled from the spec: the body of `AlignmentDB::_find_by_ref_bounds` is
not part of the sources.  Per the header comment, on success read_start and
read_stop are the read_pos of the bounding elements. -/
def AlignmentDB._find_by_ref_bounds (pairs : List AlignedPair)
    (ref_start ref_stop : Int) : Option (Int × Int) :=
  match AlignmentDB._find_iter_by_ref_bounds pairs ref_start ref_stop with
  | some (i, j) =>
    match pairs[i]?, pairs[j]? with
    | some a, some b => some (a.read_pos, b.read_pos)
    | _, _ => none
  | none => none

/-- The anchors of the scenario: `(100,10), (150,60), (200,110)`. -/
def scenario_pairs : List AlignedPair :=
  [AlignedPair.mk 100 10, AlignedPair.mk 150 60, AlignedPair.mk 200 110]

/-- A scaled pore model with a single kmer, over naturals. -/
def one_state_model : PoreModel Nat Nat Unit :=
  { model_filename := "r7.model", name := "r7", k := 5, scale := 1, shift := 0,
    drift := 0, var := 1, scale_sd := 1, var_sd := 1, shift_offset := 0,
    is_scaled := true, pmalphabet := (),
    states := [PoreModelStateParams.mk 60 2 1 1 0 1 0],
    scaled_states := [PoreModelStateParams.mk 61 2 1 1 0 1 0],
    scaled_params := [7] }

/-! ### Real-number reading of `pow` -/

theorem rpow_lit_three (x : ℝ) : x ^ (3.0 : ℝ) = x ^ 3 := by
  have h : (3.0 : ℝ) = ((3 : ℕ) : ℝ) := by norm_num
  rw [h, Real.rpow_natCast]

theorem rpow_lit_two (x : ℝ) : x ^ (2.0 : ℝ) = x ^ 2 := by
  have h : (2.0 : ℝ) = ((2 : ℕ) : ℝ) := by norm_num
  rw [h, Real.rpow_natCast]

theorem rpow_lit_half (x : ℝ) : x ^ (0.5 : ℝ) = Real.sqrt x := by
  have h : (0.5 : ℝ) = 1 / 2 := by norm_num
  rw [h, Real.sqrt_eq_rpow]

/-! ### The duration parameterisations (`update_sd_lambda`, `update_sd_stdv`) -/

/-- C2, as stated, fails: with `sd_mean = 1` and `sd_stdv = -1` the round trip
`update_sd_lambda` then `update_sd_stdv` over the reals yields `sd_stdv = 1`,
not `-1`; and with `sd_mean = 0`, `sd_stdv = 1` the quotient `0 / 0` is taken
(read as `0` over the reals here, a NaN in IEEE arithmetic) and the result is
not `1`. -/
theorem update_sd_lambda_then_stdv_counterexample :
    (((PoreModelStateParams.mk (0 : ℝ) 0 1 (-1) 0 0 0).update_sd_lambda (MathFns.mk (fun x y => x ^ y) Real.log)).update_sd_stdv
        (MathFns.mk (fun x y => x ^ y) Real.log)).sd_stdv = 1
    ∧ (((PoreModelStateParams.mk (0 : ℝ) 0 1 (-1) 0 0 0).update_sd_lambda (MathFns.mk (fun x y => x ^ y) Real.log)).update_sd_stdv
        (MathFns.mk (fun x y => x ^ y) Real.log)).sd_stdv ≠ (PoreModelStateParams.mk (0 : ℝ) 0 1 (-1) 0 0 0).sd_stdv
    ∧ (((PoreModelStateParams.mk (0 : ℝ) 0 0 1 0 0 0).update_sd_lambda (MathFns.mk (fun x y => x ^ y) Real.log)).update_sd_stdv
        (MathFns.mk (fun x y => x ^ y) Real.log)).sd_stdv ≠ (PoreModelStateParams.mk (0 : ℝ) 0 0 1 0 0 0).sd_stdv := by
  refine ⟨?_, ?_, ?_⟩
  · simp only [PoreModelStateParams.update_sd_lambda, PoreModelStateParams.update_sd_stdv,
      rpow_lit_three, rpow_lit_two, rpow_lit_half]
    norm_num
  · simp only [PoreModelStateParams.update_sd_lambda, PoreModelStateParams.update_sd_stdv,
      rpow_lit_three, rpow_lit_two, rpow_lit_half]
    norm_num
  · simp only [PoreModelStateParams.update_sd_lambda, PoreModelStateParams.update_sd_stdv,
      rpow_lit_three, rpow_lit_two, rpow_lit_half]
    norm_num

/-- C2, amended: over the reals, for a state with `sd_mean ≠ 0` and
`0 < sd_stdv`, `update_sd_lambda` followed by `update_sd_stdv` reproduces the
original `sd_stdv` and leaves `sd_mean` unchanged. -/
theorem update_sd_lambda_then_stdv (s : PoreModelStateParams ℝ)
    (hmean : s.sd_mean ≠ 0) (hstdv : 0 < s.sd_stdv) :
    ((s.update_sd_lambda (MathFns.mk (fun x y => x ^ y) Real.log)).update_sd_stdv
        (MathFns.mk (fun x y => x ^ y) Real.log)).sd_stdv = s.sd_stdv
    ∧ ((s.update_sd_lambda (MathFns.mk (fun x y => x ^ y) Real.log)).update_sd_stdv
        (MathFns.mk (fun x y => x ^ y) Real.log)).sd_mean = s.sd_mean := by
  refine ⟨?_, rfl⟩
  simp only [PoreModelStateParams.update_sd_lambda, PoreModelStateParams.update_sd_stdv,
    rpow_lit_three, rpow_lit_two, rpow_lit_half]
  have h3 : s.sd_mean ^ 3 ≠ 0 := pow_ne_zero 3 hmean
  have h2 : s.sd_stdv ^ 2 ≠ 0 := pow_ne_zero 2 hstdv.ne'
  have e : s.sd_mean ^ 3 / (s.sd_mean ^ 3 / s.sd_stdv ^ 2) = s.sd_stdv ^ 2 := by
    field_simp
  rw [e]
  exact Real.sqrt_sq hstdv.le

/-- Witness for C2 (amended) at `sd_mean = 2`, `sd_stdv = 3`. -/
theorem update_sd_lambda_then_stdv_witness :
    (PoreModelStateParams.mk (0 : ℝ) 0 2 3 0 0 0).sd_mean ≠ 0
    ∧ 0 < (PoreModelStateParams.mk (0 : ℝ) 0 2 3 0 0 0).sd_stdv
    ∧ (((PoreModelStateParams.mk (0 : ℝ) 0 2 3 0 0 0).update_sd_lambda (MathFns.mk (fun x y => x ^ y) Real.log)).update_sd_stdv
        (MathFns.mk (fun x y => x ^ y) Real.log)).sd_stdv = 3
    ∧ (((PoreModelStateParams.mk (0 : ℝ) 0 2 3 0 0 0).update_sd_lambda (MathFns.mk (fun x y => x ^ y) Real.log)).update_sd_stdv
        (MathFns.mk (fun x y => x ^ y) Real.log)).sd_mean = 2 :=
  ⟨by norm_num, by norm_num,
    update_sd_lambda_then_stdv (PoreModelStateParams.mk 0 0 2 3 0 0 0)
      (by norm_num) (by norm_num)⟩

/-- C8: over the reals, for a state with `0 < sd_mean` and `0 < sd_lambda`,
`update_sd_stdv` followed by `update_sd_lambda` reproduces the original
`sd_lambda`, and the `sd_stdv` computed on the way is strictly positive. -/
theorem update_sd_stdv_then_lambda (s : PoreModelStateParams ℝ)
    (hmean : 0 < s.sd_mean) (hlambda : 0 < s.sd_lambda) :
    ((s.update_sd_stdv (MathFns.mk (fun x y => x ^ y) Real.log)).update_sd_lambda
        (MathFns.mk (fun x y => x ^ y) Real.log)).sd_lambda = s.sd_lambda
    ∧ 0 < (s.update_sd_stdv (MathFns.mk (fun x y => x ^ y) Real.log)).sd_stdv
    ∧ 0 < ((s.update_sd_stdv (MathFns.mk (fun x y => x ^ y) Real.log)).update_sd_lambda
        (MathFns.mk (fun x y => x ^ y) Real.log)).sd_stdv := by
  have h3 : 0 < s.sd_mean ^ 3 := pow_pos hmean 3
  have hq : 0 < s.sd_mean ^ 3 / s.sd_lambda := div_pos h3 hlambda
  simp only [PoreModelStateParams.update_sd_lambda, PoreModelStateParams.update_sd_stdv,
    rpow_lit_three, rpow_lit_two, rpow_lit_half]
  refine ⟨?_, Real.sqrt_pos.mpr hq, Real.sqrt_pos.mpr hq⟩
  rw [Real.sq_sqrt hq.le]
  field_simp

/-- Witness for C8 at `sd_mean = 2`, `sd_lambda = 5`. -/
theorem update_sd_stdv_then_lambda_witness :
    0 < (PoreModelStateParams.mk (0 : ℝ) 0 2 0 0 5 0).sd_mean
    ∧ 0 < (PoreModelStateParams.mk (0 : ℝ) 0 2 0 0 5 0).sd_lambda
    ∧ (((PoreModelStateParams.mk (0 : ℝ) 0 2 0 0 5 0).update_sd_stdv (MathFns.mk (fun x y => x ^ y) Real.log)).update_sd_lambda
        (MathFns.mk (fun x y => x ^ y) Real.log)).sd_lambda = 5
    ∧ 0 < ((PoreModelStateParams.mk (0 : ℝ) 0 2 0 0 5 0).update_sd_stdv (MathFns.mk (fun x y => x ^ y) Real.log)).sd_stdv
    ∧ 0 < (((PoreModelStateParams.mk (0 : ℝ) 0 2 0 0 5 0).update_sd_stdv (MathFns.mk (fun x y => x ^ y) Real.log)).update_sd_lambda
        (MathFns.mk (fun x y => x ^ y) Real.log)).sd_stdv :=
  ⟨by norm_num, by norm_num,
    update_sd_stdv_then_lambda (PoreModelStateParams.mk 0 0 2 0 0 5 0)
      (by norm_num) (by norm_num)⟩

/-! ### Assignment from a model entry and the cached logarithms -/

/-- C4: after `s = e` the four level/duration fields of `s` are those of `e`
and `sd_lambda` is recomputed as `pow(e.sd_mean, 3.0) / pow(e.sd_stdv, 2.0)`,
for every arithmetic and whatever `s` held before; over the reals this is
`e.sd_mean ^ 3 / e.sd_stdv ^ 2`. -/
theorem assign_copies_and_rederives_sd_lambda :
    (∀ (α : Type) [Div α] [OfScientific α] (m : MathFns α)
        (s : PoreModelStateParams α) (e : Model_Entry α),
        (s.assign m e).level_mean = e.level_mean
        ∧ (s.assign m e).level_stdv = e.level_stdv
        ∧ (s.assign m e).sd_mean = e.sd_mean
        ∧ (s.assign m e).sd_stdv = e.sd_stdv
        ∧ (s.assign m e).sd_lambda = m.pow e.sd_mean 3.0 / m.pow e.sd_stdv 2.0)
    ∧ (∀ (s : PoreModelStateParams ℝ) (e : Model_Entry ℝ),
        (s.assign (MathFns.mk (fun x y => x ^ y) Real.log) e).sd_lambda = e.sd_mean ^ 3 / e.sd_stdv ^ 2) := by
  refine ⟨fun α _ _ m s e => ⟨rfl, rfl, rfl, rfl, rfl⟩, fun s e => ?_⟩
  simp only [PoreModelStateParams.assign, PoreModelStateParams.update_sd_lambda,
    rpow_lit_three, rpow_lit_two]

/-- C10: `s = e` leaves `level_log_stdv` and `sd_log_lambda` as they were;
`update_logs` sets exactly these two fields, to `log(level_stdv)` and
`log(sd_lambda)`, and keeps the other five, so the cached logarithms match the
assigned values once `update_logs` has run after the assignment. -/
theorem assign_keeps_logs_update_logs_refreshes {α : Type} [Div α] [OfScientific α]
    (m : MathFns α) (s : PoreModelStateParams α) (e : Model_Entry α) :
    (s.assign m e).level_log_stdv = s.level_log_stdv
    ∧ (s.assign m e).sd_log_lambda = s.sd_log_lambda
    ∧ (s.update_logs m).level_log_stdv = m.log s.level_stdv
    ∧ (s.update_logs m).sd_log_lambda = m.log s.sd_lambda
    ∧ (s.update_logs m).level_mean = s.level_mean
    ∧ (s.update_logs m).level_stdv = s.level_stdv
    ∧ (s.update_logs m).sd_mean = s.sd_mean
    ∧ (s.update_logs m).sd_stdv = s.sd_stdv
    ∧ (s.update_logs m).sd_lambda = s.sd_lambda
    ∧ ((s.assign m e).update_logs m).level_log_stdv = m.log e.level_stdv
    ∧ ((s.assign m e).update_logs m).sd_log_lambda
        = m.log (m.pow e.sd_mean 3.0 / m.pow e.sd_stdv 2.0) :=
  ⟨rfl, rfl, rfl, rfl, rfl, rfl, rfl, rfl, rfl, rfl, rfl⟩

/-! ### The scaled accessors of `PoreModel` -/

/-- C3: for a `kmer_rank` that indexes both scaled vectors, each of
`get_scaled_parameters` and `get_scaled_state` fails exactly when `is_scaled`
is false, the failure being the assertion; when `is_scaled` is true they return
`scaled_params[kmer_rank]` and `scaled_states[kmer_rank]` together with the
unchanged model. -/
theorem get_scaled_accessors {α G A : Type} (pm : PoreModel α G A) (kmer_rank : Nat)
    (hp : kmer_rank < pm.scaled_params.length)
    (hs : kmer_rank < pm.scaled_states.length) :
    ((∃ f, pm.get_scaled_parameters kmer_rank = Except.error f) ↔ pm.is_scaled = false)
    ∧ ((∃ f, pm.get_scaled_state kmer_rank = Except.error f) ↔ pm.is_scaled = false)
    ∧ (pm.is_scaled = false →
        pm.get_scaled_parameters kmer_rank = Except.error Failure.assertion_failed
        ∧ pm.get_scaled_state kmer_rank = Except.error Failure.assertion_failed)
    ∧ (pm.is_scaled = true →
        pm.get_scaled_parameters kmer_rank = Except.ok (pm.scaled_params[kmer_rank], pm)
        ∧ pm.get_scaled_state kmer_rank = Except.ok (pm.scaled_states[kmer_rank], pm)) := by
  have e1 : pm.scaled_params[kmer_rank]? = some pm.scaled_params[kmer_rank] :=
    List.getElem?_eq_getElem hp
  have e2 : pm.scaled_states[kmer_rank]? = some pm.scaled_states[kmer_rank] :=
    List.getElem?_eq_getElem hs
  cases hsc : pm.is_scaled <;>
    simp [PoreModel.get_scaled_parameters, PoreModel.get_scaled_state, hsc, e1, e2]

/-- Witness for C3 on `one_state_model` at `kmer_rank = 0`. -/
theorem get_scaled_accessors_witness :
    one_state_model.is_scaled = true
    ∧ (0 : Nat) < one_state_model.scaled_params.length
    ∧ (0 : Nat) < one_state_model.scaled_states.length
    ∧ one_state_model.get_scaled_parameters 0 = Except.ok (7, one_state_model)
    ∧ one_state_model.get_scaled_state 0
        = Except.ok (PoreModelStateParams.mk 61 2 1 1 0 1 0, one_state_model) :=
  ⟨rfl, by decide, by decide,
    ((get_scaled_accessors one_state_model 0 (by decide) (by decide)).2.2.2 rfl).1,
    ((get_scaled_accessors one_state_model 0 (by decide) (by decide)).2.2.2 rfl).2⟩

/-! ### `set_alternative_model` and the region accessors -/

/-- C7: `set_alternative_model` replaces `m_p_model_map` and nothing else (file
names, region contig, start, end, reference sequence, fast5 map, sequence
records, event records and squiggle-read map are kept); `get_reference`,
`get_region_start` and `get_region_end` hand back the object they were called
on, and return the same values after `set_alternative_model` as before. -/
theorem set_alternative_model_frame {F SR MM : Type} (db : AlignmentDB F SR MM)
    (p_model_map : Option MM) :
    (db.set_alternative_model p_model_map).m_p_model_map = p_model_map
    ∧ (db.set_alternative_model p_model_map).m_region_contig = db.m_region_contig
    ∧ (db.set_alternative_model p_model_map).m_region_start = db.m_region_start
    ∧ (db.set_alternative_model p_model_map).m_region_end = db.m_region_end
    ∧ (db.set_alternative_model p_model_map).m_region_ref_sequence = db.m_region_ref_sequence
    ∧ (db.set_alternative_model p_model_map).m_sequence_records = db.m_sequence_records
    ∧ (db.set_alternative_model p_model_map).m_event_records = db.m_event_records
    ∧ (db.set_alternative_model p_model_map).m_squiggle_read_map = db.m_squiggle_read_map
    ∧ (db.set_alternative_model p_model_map).m_fast5_name_map = db.m_fast5_name_map
    ∧ (db.set_alternative_model p_model_map).m_reference_file = db.m_reference_file
    ∧ (db.set_alternative_model p_model_map).m_sequence_bam = db.m_sequence_bam
    ∧ (db.set_alternative_model p_model_map).m_event_bam = db.m_event_bam
    ∧ db.get_reference.2 = db ∧ db.get_region_start.2 = db ∧ db.get_region_end.2 = db
    ∧ (db.set_alternative_model p_model_map).get_reference.1 = db.get_reference.1
    ∧ (db.set_alternative_model p_model_map).get_region_start.1 = db.get_region_start.1
    ∧ (db.set_alternative_model p_model_map).get_region_end.1 = db.get_region_end.1 :=
  ⟨rfl, rfl, rfl, rfl, rfl, rfl, rfl, rfl, rfl, rfl, rfl, rfl, rfl, rfl, rfl, rfl, rfl, rfl⟩

/-! ### The stride field of `EventAlignmentRecord` -/

/-- On a list sorted by reference position, positions are monotone in the
index. -/
theorem sorted_getElem?_le {pairs : List AlignedPair}
    (hsorted : pairs.Pairwise (fun a b => a.ref_pos ≤ b.ref_pos))
    {i j : Nat} {p q : AlignedPair} (hij : i ≤ j)
    (hp : pairs[i]? = some p) (hq : pairs[j]? = some q) : p.ref_pos ≤ q.ref_pos := by
  rcases Nat.eq_or_lt_of_le hij with h | h
  · subst h
    rw [hp] at hq
    cases hq
    exact le_refl _
  · obtain ⟨hi, rfl⟩ := List.getElem?_eq_some.mp hp
    obtain ⟨hj, rfl⟩ := List.getElem?_eq_some.mp hq
    exact List.pairwise_iff_getElem.mp hsorted i j hi hj h

/-- Invariant of the shared loop: when `goRight` holds on a prefix of the list
and fails on the rest, the loop started on a range whose left side satisfies
`goRight` and whose right side does not returns the boundary, provided the fuel
covers the range. -/
theorem bound_loop_spec (pairs : List AlignedPair) (goRight : AlignedPair → Bool)
    (hmono : ∀ (i j : Nat) (p q : AlignedPair), i ≤ j → pairs[i]? = some p →
      pairs[j]? = some q →
      goRight q = true → goRight p = true) :
    ∀ fuel first count, count ≤ fuel → first + count ≤ pairs.length →
      (∀ (i : Nat) (p : AlignedPair), i < first → pairs[i]? = some p → goRight p = true) →
      (∀ (i : Nat) (p : AlignedPair), first + count ≤ i → pairs[i]? = some p →
        goRight p = false) →
      first ≤ bound_loop pairs goRight fuel first count
      ∧ bound_loop pairs goRight fuel first count ≤ first + count
      ∧ (∀ (i : Nat) (p : AlignedPair), i < bound_loop pairs goRight fuel first count →
          pairs[i]? = some p → goRight p = true)
      ∧ (∀ (i : Nat) (p : AlignedPair), bound_loop pairs goRight fuel first count ≤ i →
          pairs[i]? = some p → goRight p = false) := by
  intro fuel
  induction fuel with
  | zero =>
    intro first count hc _ hlo hhi
    have hc0 : count = 0 := Nat.le_zero.mp hc
    subst hc0
    exact ⟨le_refl _, by simp [bound_loop], by simpa [bound_loop] using hlo,
      by simpa [bound_loop] using hhi⟩
  | succ fuel ih =>
    intro first count hc hlen hlo hhi
    by_cases h0 : count = 0
    · subst h0
      simp only [bound_loop, if_true]
      exact ⟨le_refl _, by omega, hlo, by simpa using hhi⟩
    · have hit : first + count / 2 < pairs.length := by
        have : count / 2 < count := Nat.div_lt_self (Nat.pos_of_ne_zero h0) (by decide)
        omega
      have hget : pairs[first + count / 2]? = some pairs[first + count / 2] :=
        List.getElem?_eq_getElem hit
      have hstep : count / 2 < count := Nat.div_lt_self (Nat.pos_of_ne_zero h0) (by decide)
      cases hg : goRight pairs[first + count / 2] with
      | true =>
        have hrec := ih (first + count / 2 + 1) (count - (count / 2 + 1)) (by omega) (by omega)
          (fun i p hi hp => hmono i (first + count / 2) p _ (by omega) hp hget hg)
          (fun i p hi hp => hhi i p (by omega) hp)
        have heq : bound_loop pairs goRight (fuel + 1) first count
            = bound_loop pairs goRight fuel (first + count / 2 + 1)
                (count - (count / 2 + 1)) := by
          simp [bound_loop, h0, hget, hg]
        rw [heq]
        exact ⟨by omega, by omega, hrec.2.2.1, hrec.2.2.2⟩
      | false =>
        have hrec := ih first (count / 2) (by omega) (by omega) hlo
          (fun i p hi hp => by
            cases hq : goRight p with
            | false => rfl
            | true =>
              have := hmono (first + count / 2) i _ p hi hget hp hq
              rw [hg] at this
              exact absurd this (by decide))
        have heq : bound_loop pairs goRight (fuel + 1) first count
            = bound_loop pairs goRight fuel first (count / 2) := by
          simp [bound_loop, h0, hget, hg]
        rw [heq]
        exact ⟨hrec.1, by omega, hrec.2.2.1, hrec.2.2.2⟩

/-- On a sorted list `lower_bound` is the index of the first pair whose
reference position is at least `value`. -/
theorem lower_bound_spec {pairs : List AlignedPair}
    (hsorted : pairs.Pairwise (fun a b => a.ref_pos ≤ b.ref_pos)) (value : Int) :
    lower_bound pairs value ≤ pairs.length
    ∧ ∀ (i : Nat) (p : AlignedPair), pairs[i]? = some p → (i < lower_bound pairs value ↔ p.ref_pos < value) := by
  have h := bound_loop_spec pairs (fun p => decide (p.ref_pos < value))
    (fun i j p q hij hp hq hgq => by
      have := sorted_getElem?_le hsorted hij hp hq
      simp only [decide_eq_true_eq] at hgq ⊢
      omega)
    pairs.length 0 pairs.length (le_refl _) (by omega)
    (fun i p hi _ => absurd hi (Nat.not_lt_zero i))
    (fun i p hi hp => by
      have := (List.getElem?_eq_some.mp hp).1
      omega)
  refine ⟨by simpa [lower_bound] using h.2.1, fun i p hp => ⟨fun hi => ?_, fun hv => ?_⟩⟩
  · simpa using h.2.2.1 i p hi hp
  · by_contra hcon
    have := h.2.2.2 i p (Nat.le_of_not_lt hcon) hp
    simp only [decide_eq_false_iff_not] at this
    exact this hv

/-- On a sorted list `upper_bound` is the index just past the last pair whose
reference position is at most `value`. -/
theorem upper_bound_spec {pairs : List AlignedPair}
    (hsorted : pairs.Pairwise (fun a b => a.ref_pos ≤ b.ref_pos)) (value : Int) :
    upper_bound pairs value ≤ pairs.length
    ∧ ∀ (i : Nat) (p : AlignedPair), pairs[i]? = some p → (i < upper_bound pairs value ↔ p.ref_pos ≤ value) := by
  have h := bound_loop_spec pairs (fun p => !decide (value < p.ref_pos))
    (fun i j p q hij hp hq hgq => by
      have := sorted_getElem?_le hsorted hij hp hq
      simp only [Bool.not_eq_true', decide_eq_false_iff_not] at hgq ⊢
      omega)
    pairs.length 0 pairs.length (le_refl _) (by omega)
    (fun i p hi _ => absurd hi (Nat.not_lt_zero i))
    (fun i p hi hp => by
      have := (List.getElem?_eq_some.mp hp).1
      omega)
  refine ⟨by simpa [upper_bound] using h.2.1, fun i p hp => ⟨fun hi => ?_, fun hv => ?_⟩⟩
  · have := h.2.2.1 i p hi hp
    simp only [Bool.not_eq_true', decide_eq_false_iff_not] at this
    omega
  · by_contra hcon
    have := h.2.2.2 i p (Nat.le_of_not_lt hcon) hp
    simp only [Bool.not_eq_false', decide_eq_true_eq] at this
    omega

/-! ### The coordinate search -/

/-- The two bounds cross exactly when some pair lies in the interval, and then
they delimit the pairs of the interval. -/
theorem bounds_delimit_interval {pairs : List AlignedPair}
    (hsorted : pairs.Pairwise (fun a b => a.ref_pos ≤ b.ref_pos))
    (ref_start ref_stop : Int) :
    (lower_bound pairs ref_start < upper_bound pairs ref_stop ↔
        ∃ p ∈ pairs, ref_start ≤ p.ref_pos ∧ p.ref_pos ≤ ref_stop)
    ∧ (lower_bound pairs ref_start < upper_bound pairs ref_stop →
        ∃ a b : AlignedPair,
          pairs[lower_bound pairs ref_start]? = some a
          ∧ pairs[upper_bound pairs ref_stop - 1]? = some b
          ∧ ref_start ≤ a.ref_pos
          ∧ (∀ q ∈ pairs, ref_start ≤ q.ref_pos → a.ref_pos ≤ q.ref_pos)
          ∧ b.ref_pos ≤ ref_stop
          ∧ (∀ q ∈ pairs, q.ref_pos ≤ ref_stop → q.ref_pos ≤ b.ref_pos)
          ∧ (∀ (k : Nat) (q : AlignedPair), pairs[k]? = some q → ref_start ≤ q.ref_pos →
              lower_bound pairs ref_start ≤ k)
          ∧ (∀ (k : Nat) (q : AlignedPair), pairs[k]? = some q → q.ref_pos ≤ ref_stop →
              k ≤ upper_bound pairs ref_stop - 1)) := by
  obtain ⟨hLlen, hL⟩ := lower_bound_spec hsorted ref_start
  obtain ⟨hUlen, hU⟩ := upper_bound_spec hsorted ref_stop
  have hfirst : ∀ (k : Nat) (q : AlignedPair), pairs[k]? = some q → ref_start ≤ q.ref_pos →
      lower_bound pairs ref_start ≤ k := by
    intro k q hq hge
    by_contra hcon
    have := (hL k q hq).mp (Nat.lt_of_not_le hcon)
    omega
  have hlast : ∀ (k : Nat) (q : AlignedPair), pairs[k]? = some q → q.ref_pos ≤ ref_stop →
      k < upper_bound pairs ref_stop := fun k q hq hle => (hU k q hq).mpr hle
  have key : lower_bound pairs ref_start < upper_bound pairs ref_stop →
      ∃ a b : AlignedPair,
          pairs[lower_bound pairs ref_start]? = some a
          ∧ pairs[upper_bound pairs ref_stop - 1]? = some b
          ∧ ref_start ≤ a.ref_pos
          ∧ (∀ q ∈ pairs, ref_start ≤ q.ref_pos → a.ref_pos ≤ q.ref_pos)
          ∧ b.ref_pos ≤ ref_stop
          ∧ (∀ q ∈ pairs, q.ref_pos ≤ ref_stop → q.ref_pos ≤ b.ref_pos)
          ∧ (∀ (k : Nat) (q : AlignedPair), pairs[k]? = some q → ref_start ≤ q.ref_pos →
              lower_bound pairs ref_start ≤ k)
          ∧ (∀ (k : Nat) (q : AlignedPair), pairs[k]? = some q → q.ref_pos ≤ ref_stop →
              k ≤ upper_bound pairs ref_stop - 1) := by
    intro hlt
    have hi : lower_bound pairs ref_start < pairs.length := by omega
    have hj : upper_bound pairs ref_stop - 1 < pairs.length := by omega
    have ha : pairs[lower_bound pairs ref_start]? = some pairs[lower_bound pairs ref_start] :=
      List.getElem?_eq_getElem hi
    have hb : pairs[upper_bound pairs ref_stop - 1]?
        = some pairs[upper_bound pairs ref_stop - 1] := List.getElem?_eq_getElem hj
    refine ⟨_, _, ha, hb, ?_, ?_, ?_, ?_, hfirst, ?_⟩
    · have := (hL _ _ ha).not.mp (Nat.lt_irrefl _)
      omega
    · intro q hq hge
      obtain ⟨k, hk⟩ := List.mem_iff_getElem?.mp hq
      exact sorted_getElem?_le hsorted (hfirst k q hk hge) ha hk
    · exact (hU _ _ hb).mp (by omega)
    · intro q hq hle
      obtain ⟨k, hk⟩ := List.mem_iff_getElem?.mp hq
      have := hlast k q hk hle
      exact sorted_getElem?_le hsorted (by omega) hk hb
    · intro k q hq hle
      have := hlast k q hq hle
      omega
  refine ⟨⟨fun hlt => ?_, fun hex => ?_⟩, key⟩
  · obtain ⟨a, b, ha, _, hge, _, _, _, _, _⟩ := key hlt
    exact ⟨a, List.mem_iff_getElem?.mpr ⟨_, ha⟩, hge, (hU _ _ ha).mp hlt⟩
  · obtain ⟨p, hp, hge, hle⟩ := hex
    obtain ⟨k, hk⟩ := List.mem_iff_getElem?.mp hp
    have h1 := hfirst k p hk hge
    have h2 := hlast k p hk hle
    omega

/-- C1: on pairs sorted ascending by reference position, `_find_by_ref_bounds`
and `_find_iter_by_ref_bounds` succeed exactly when `ref_start ≤ ref_stop` and
some pair has its reference position in `[ref_start, ref_stop]`, and fail
otherwise.  On success `_find_iter_by_ref_bounds` returns the index of the
first pair with reference position `≥ ref_start`, which is the smallest such
position, and the index of the last pair with reference position
`≤ ref_stop`, which is the largest such position; `_find_by_ref_bounds`
returns the read positions of those same two pairs. -/
theorem find_by_ref_bounds_spec (pairs : List AlignedPair) (ref_start ref_stop : Int)
    (hsorted : pairs.Pairwise (fun a b => a.ref_pos ≤ b.ref_pos)) :
    ((AlignmentDB._find_by_ref_bounds pairs ref_start ref_stop).isSome = true ↔
        ref_start ≤ ref_stop ∧ ∃ p ∈ pairs, ref_start ≤ p.ref_pos ∧ p.ref_pos ≤ ref_stop)
    ∧ ((AlignmentDB._find_iter_by_ref_bounds pairs ref_start ref_stop).isSome = true ↔
        ref_start ≤ ref_stop ∧ ∃ p ∈ pairs, ref_start ≤ p.ref_pos ∧ p.ref_pos ≤ ref_stop)
    ∧ (∀ read_start read_stop : Int,
        AlignmentDB._find_by_ref_bounds pairs ref_start ref_stop
          = some (read_start, read_stop) →
        ∃ (i j : Nat) (a b : AlignedPair),
          AlignmentDB._find_iter_by_ref_bounds pairs ref_start ref_stop = some (i, j)
          ∧ pairs[i]? = some a ∧ pairs[j]? = some b
          ∧ read_start = a.read_pos ∧ read_stop = b.read_pos
          ∧ ref_start ≤ a.ref_pos
          ∧ (∀ q ∈ pairs, ref_start ≤ q.ref_pos → a.ref_pos ≤ q.ref_pos)
          ∧ b.ref_pos ≤ ref_stop
          ∧ (∀ q ∈ pairs, q.ref_pos ≤ ref_stop → q.ref_pos ≤ b.ref_pos)
          ∧ (∀ (k : Nat) (q : AlignedPair), pairs[k]? = some q → ref_start ≤ q.ref_pos →
              i ≤ k)
          ∧ (∀ (k : Nat) (q : AlignedPair), pairs[k]? = some q → q.ref_pos ≤ ref_stop →
              k ≤ j)) := by
  obtain ⟨hiff, hkey⟩ := bounds_delimit_interval hsorted ref_start ref_stop
  have hrange : (∃ p ∈ pairs, ref_start ≤ p.ref_pos ∧ p.ref_pos ≤ ref_stop) ↔
      (ref_start ≤ ref_stop ∧ ∃ p ∈ pairs, ref_start ≤ p.ref_pos ∧ p.ref_pos ≤ ref_stop) :=
    ⟨fun ⟨p, hp, h1, h2⟩ => ⟨le_trans h1 h2, p, hp, h1, h2⟩, fun h => h.2⟩
  by_cases hlt : lower_bound pairs ref_start < upper_bound pairs ref_stop
  · obtain ⟨a, b, ha, hb, h1, h2, h3, h4, h5, h6⟩ := hkey hlt
    have hiter : AlignmentDB._find_iter_by_ref_bounds pairs ref_start ref_stop
        = some (lower_bound pairs ref_start, upper_bound pairs ref_stop - 1) := by
      simp [AlignmentDB._find_iter_by_ref_bounds, hlt]
    have hfind : AlignmentDB._find_by_ref_bounds pairs ref_start ref_stop
        = some (a.read_pos, b.read_pos) := by
      simp [AlignmentDB._find_by_ref_bounds, hiter, ha, hb]
    refine ⟨?_, ?_, ?_⟩
    · rw [hfind]
      simpa using hrange.mp (hiff.mp hlt)
    · rw [hiter]
      simpa using hrange.mp (hiff.mp hlt)
    · intro read_start read_stop hres
      rw [hfind] at hres
      simp only [Option.some.injEq, Prod.mk.injEq] at hres
      exact ⟨_, _, a, b, hiter, ha, hb, hres.1.symm, hres.2.symm, h1, h2, h3, h4, h5, h6⟩
  · have hiter : AlignmentDB._find_iter_by_ref_bounds pairs ref_start ref_stop = none := by
      simp [AlignmentDB._find_iter_by_ref_bounds, hlt]
    have hfind : AlignmentDB._find_by_ref_bounds pairs ref_start ref_stop = none := by
      simp [AlignmentDB._find_by_ref_bounds, hiter]
    have hno : ¬ (ref_start ≤ ref_stop ∧
        ∃ p ∈ pairs, ref_start ≤ p.ref_pos ∧ p.ref_pos ≤ ref_stop) :=
      fun h => hlt (hiff.mpr h.2)
    refine ⟨?_, ?_, ?_⟩
    · rw [hfind]
      simpa using hno
    · rw [hiter]
      simpa using hno
    · intro read_start read_stop hres
      rw [hfind] at hres
      cases hres

/-- Witness for C1 on the pairs `(100,10), (150,60), (200,110)` and the interval
`[100, 160]`: the search succeeds with indices `(0, 1)` and read positions
`(10, 60)`. -/
theorem find_by_ref_bounds_spec_witness :
    scenario_pairs.Pairwise (fun a b => a.ref_pos ≤ b.ref_pos)
    ∧ AlignmentDB._find_by_ref_bounds scenario_pairs 100 160 = some (10, 60)
    ∧ AlignmentDB._find_iter_by_ref_bounds scenario_pairs 100 160 = some (0, 1)
    ∧ ((AlignmentDB._find_by_ref_bounds scenario_pairs 100 160).isSome = true ↔
        (100 : Int) ≤ 160
        ∧ ∃ p ∈ scenario_pairs, (100 : Int) ≤ p.ref_pos ∧ p.ref_pos ≤ 160) :=
  ⟨by decide, by decide, by decide,
    (find_by_ref_bounds_spec scenario_pairs 100 160 (by decide)).1⟩

/-! ### The queries built on the search -/

end Nanopolish
